import Mathlib

/-!
Shallow embedding of the pyevo population-dynamics engine
(`src/blobs.py`, `src/helpers.py`, `src/environment.py`).

Modelling conventions, used consistently below:

* Python floats are modelled as `ℚ`; every float literal of the source
  (`0.5`, `0.1`, `0.3`, `0.2`, `0.8`) becomes the corresponding rational.
* Python's `random.random()` draws (uniform on `[0, 1)`) are modelled as
  explicit `ℚ` parameters, or as values pulled from an explicit stream
  (`Rng`).  `np.random.uniform(low=0.1, high=1.0)` is modelled as
  `1/10 + (9/10) * u` applied to a raw draw `u`, mirroring
  `low + (high - low) * random_sample()`.  `random.randrange(2)` is
  modelled by thresholding a raw draw at `1/2`.
* `calculate_distance_to_coord` of the source returns a Euclidean
  distance (a square root).  The embedding works with the *squared*
  distance throughout (`calculate_distance_to_coord_sq`); every
  comparison the source performs on distances (`dist < min_dist`,
  `dist <= blob.size`) is performed here on squares
  (`d_sq < min_sq`, `d_sq <= size ^ 2`), which is equivalent because
  distances are nonnegative and every blob size of the catalog is
  positive (`1/10` or `3/10`).
* Python objects are mutable and shared by reference.  The embedding
  makes this explicit with a store: a `List Blob` heap; a generation is
  a list of indices ("refs") into the store; in-place mutation of an
  object is `List.set` at its ref.
* Code that can raise is modelled with `Option` / `Except` / an explicit
  result type carrying the state at the time of the raise.
-/

/-- Agent record: the attribute set given to `BaseBlob.__init__` and its
subclasses in `src/blobs.py`.  `mutation_class` / `repr_class` store the
*name* of the class held by the corresponding `Callable` attribute
(class names are in bijection with classes in the catalog).
`attack_dmg` exists only on `AttackingBlob` in the source, hence an
`Option`. -/
structure Blob where
  name : String
  survival_prob : ℚ
  reproduction_prob : ℚ
  mutation_prob : ℚ
  mutation_class : String
  repr_class : String
  color : String
  x : ℚ
  y : ℚ
  size : ℚ
  step : ℚ
  attack_dmg : Option ℚ
deriving Inhabited, DecidableEq

/-- `BaseBlob.__init__`: `self.x = random.random()` and
`self.y = random.random()` become the two draw parameters `ux uy`. -/
def BaseBlob.init (ux uy : ℚ) : Blob where
  name := "BaseBlob"
  survival_prob := 1/2
  reproduction_prob := 1/2
  mutation_prob := 1/2
  mutation_class := "MutatedBaseBlob"
  repr_class := "BaseBlob"
  color := "blue"
  x := ux
  y := uy
  size := 1/10
  step := 1/10
  attack_dmg := none

/-- `PerfectTestBlob.__init__` (note: despite its docstring it only
overrides `name` and `repr_class`). -/
def PerfectTestBlob.init (ux uy : ℚ) : Blob :=
  { BaseBlob.init ux uy with
    name := "PerfectTestBlob"
    repr_class := "MutatedBaseBlob" }

/-- `MutatedBaseBlob.__init__`. -/
def MutatedBaseBlob.init (ux uy : ℚ) : Blob :=
  { BaseBlob.init ux uy with
    name := "MutatedBaseBlob"
    color := "red"
    repr_class := "MutatedBaseBlob" }

/-- `SturdyBlob.__init__`. -/
def SturdyBlob.init (ux uy : ℚ) : Blob :=
  { BaseBlob.init ux uy with
    name := "SturdyBlob"
    color := "green"
    repr_class := "SturdyBlob"
    survival_prob := 8/10
    reproduction_prob := 1/2
    mutation_prob := 0 }

/-- `HungryBlob.__init__`. -/
def HungryBlob.init (ux uy : ℚ) : Blob :=
  { BaseBlob.init ux uy with
    name := "HungryBlob"
    color := "purple"
    mutation_class := "MutatedHungryBlob"
    repr_class := "HungryBlob" }

/-- `MutatedHungryBlob.__init__`. -/
def MutatedHungryBlob.init (ux uy : ℚ) : Blob :=
  { HungryBlob.init ux uy with
    name := "MutatedHungryBlob"
    color := "pink"
    size := 3/10
    step := 3/10
    repr_class := "MutatedHungryBlob" }

/-- `BaseInteractingBlob.__init__`. -/
def BaseInteractingBlob.init (ux uy : ℚ) : Blob :=
  { HungryBlob.init ux uy with
    name := "BaseInteractingBlob"
    color := "gray"
    survival_prob := 8/10
    reproduction_prob := 1/2
    mutation_prob := 0
    size := 3/10
    mutation_class := "BaseInteractingBlob"
    repr_class := "BaseInteractingBlob" }

/-- `AttackingBlob.__init__`. -/
def AttackingBlob.init (ux uy : ℚ) : Blob :=
  { BaseInteractingBlob.init ux uy with
    name := "AttackingBlob"
    color := "red"
    mutation_class := "AttackingBlob"
    repr_class := "AttackingBlob"
    attack_dmg := some (2/10) }

/-- `TimidBlob.__init__`. -/
def TimidBlob.init (ux uy : ℚ) : Blob :=
  { BaseInteractingBlob.init ux uy with
    name := "TimidBlob"
    color := "green"
    mutation_class := "TimidBlob"
    repr_class := "TimidBlob" }

/-- `QuickBlob.__init__`. -/
def QuickBlob.init (ux uy : ℚ) : Blob :=
  { BaseInteractingBlob.init ux uy with
    name := "QuickBlob"
    color := "yellow"
    mutation_class := "QuickBlob"
    repr_class := "QuickBlob" }

/-- Class names of the (closed) blob catalog of `src/blobs.py`. -/
def blobClassTags : List String :=
  ["BaseBlob", "PerfectTestBlob", "MutatedBaseBlob", "SturdyBlob",
   "HungryBlob", "MutatedHungryBlob", "BaseInteractingBlob",
   "AttackingBlob", "TimidBlob", "QuickBlob"]

/-- Calling the class object stored in `mutation_class` / `repr_class`:
dispatch from the stored class name to the matching constructor.  The
constructor draws a fresh position, hence the draw parameters `ux uy`.
The catch-all branch is unreachable for tags produced by the catalog. -/
def mkBlobOfClass (tag : String) (ux uy : ℚ) : Blob :=
  match tag with
  | "PerfectTestBlob" => PerfectTestBlob.init ux uy
  | "MutatedBaseBlob" => MutatedBaseBlob.init ux uy
  | "SturdyBlob" => SturdyBlob.init ux uy
  | "HungryBlob" => HungryBlob.init ux uy
  | "MutatedHungryBlob" => MutatedHungryBlob.init ux uy
  | "BaseInteractingBlob" => BaseInteractingBlob.init ux uy
  | "AttackingBlob" => AttackingBlob.init ux uy
  | "TimidBlob" => TimidBlob.init ux uy
  | "QuickBlob" => QuickBlob.init ux uy
  | _ => BaseBlob.init ux uy

/-- `BaseBlob.set_probs`. -/
def Blob.set_probs (b : Blob) (survival_prob repr_prob mutation_prob : ℚ) : Blob :=
  { b with
    survival_prob := survival_prob
    reproduction_prob := repr_prob
    mutation_prob := mutation_prob }

/-- `BaseBlob.reproduce`: `mutation_event = random.random()` is the
parameter `mutation_event`; the called constructor's own two position
draws are `ux uy`. -/
def Blob.reproduce (b : Blob) (mutation_event ux uy : ℚ) : Blob :=
  if mutation_event ≤ b.mutation_prob then mkBlobOfClass b.mutation_class ux uy
  else mkBlobOfClass b.repr_class ux uy

/-- `helpers.calculate_distance_to_coord`, squared (see the header on
the squared-distance convention). -/
def calculate_distance_to_coord_sq (blob_coord coord : ℚ × ℚ) : ℚ :=
  (coord.1 - blob_coord.1) ^ 2 + (coord.2 - blob_coord.2) ^ 2

/-- `helpers.find_closest_coord`.  Returns the closest coordinate (or
`none`, the source's `None`) and the minimal *squared* distance; the
sentinel `min_dist = 1000000` of the source becomes its square. -/
def find_closest_coord (blob_coords : ℚ × ℚ) (coord_list : List (ℚ × ℚ)) :
    Option (ℚ × ℚ) × ℚ :=
  coord_list.foldl
    (fun acc coord =>
      let dist := calculate_distance_to_coord_sq blob_coords coord
      if dist < acc.2 then (some coord, dist) else acc)
    (none, (1000000 : ℚ) ^ 2)

/-- `HungryBlob.move`: step towards `coords` by the sign of the delta on
each axis. -/
def HungryBlob.move (b : Blob) (coords : ℚ × ℚ) : Blob :=
  { b with
    x := b.x + b.step * (if b.x < coords.1 then 1 else -1)
    y := b.y + b.step * (if b.y < coords.2 then 1 else -1) }

/-- `TimidBlob.run_away`: sign-negated `move`. -/
def TimidBlob.run_away (b : Blob) (coords : ℚ × ℚ) : Blob :=
  { b with
    x := b.x - b.step * (if b.x < coords.1 then 1 else -1)
    y := b.y - b.step * (if b.y < coords.2 then 1 else -1) }

/-- `BaseBlob.move`: `[-1, 1][random.randrange(2)]` per axis, with each
`randrange(2)` modelled by thresholding a raw draw at `1/2` (draw below
`1/2` picks index 0, i.e. `-1`). -/
def BaseBlob.move (b : Blob) (u1 u2 : ℚ) : Blob :=
  { b with
    x := b.x + b.step * (if u1 < 1/2 then -1 else 1)
    y := b.y + b.step * (if u2 < 1/2 then -1 else 1) }

/-- Classes whose `move` is `HungryBlob.move` (all of `HungryBlob`'s
subtree); the remaining catalog classes use `BaseBlob.move`. -/
def usesSeekerMove (b : Blob) : Bool :=
  b.name ∈ ["HungryBlob", "MutatedHungryBlob", "BaseInteractingBlob",
            "AttackingBlob", "TimidBlob", "QuickBlob"]

/-- Stream of raw uniform draws with a cursor: the injected source of
randomness (`random` / `np.random`), consumed in program order. -/
structure Rng where
  vals : Nat → ℚ
  idx : Nat

/-- Pull one draw. -/
def Rng.next (g : Rng) : ℚ × Rng :=
  (g.vals g.idx, ⟨g.vals, g.idx + 1⟩)

/-- Pull `n` draws. -/
def Rng.take (g : Rng) : Nat → List ℚ × Rng
  | 0 => ([], g)
  | n + 1 =>
      let (u, g1) := g.next
      let (rest, g2) := g1.take n
      (u :: rest, g2)

/-- Method dispatch for `b.move(coords)`.  `HungryBlob.move` subscripts
`coords`, so a `None` argument raises (`none` result); `BaseBlob.move`
ignores `coords` and consumes two draws. -/
def Blob.moveDispatch (b : Blob) (coords : Option (ℚ × ℚ)) (rng : Rng) :
    Option (Blob × Rng) :=
  if usesSeekerMove b then
    match coords with
    | some c => some (HungryBlob.move b c, rng)
    | none => none
  else
    let (u1, rng1) := rng.next
    let (u2, rng2) := rng1.next
    some (BaseBlob.move b u1 u2, rng2)

/-- `helpers.find_blobs_in_reach` on blob values: keeps the blobs of
`blob_list` whose *coordinates differ* from `blob`'s and whose distance
is at most `blob.size`. -/
def find_blobs_in_reach (blob : Blob) (blob_list : List Blob) : List Blob :=
  blob_list.filter fun b =>
    decide ((blob.x, blob.y) ≠ (b.x, b.y)) &&
    decide (calculate_distance_to_coord_sq (blob.x, blob.y) (b.x, b.y) ≤ blob.size ^ 2)

/-- `helpers.find_blobs_in_reach` at the store level: same test, applied
through refs (the source passes the *objects* of `population[-1]`; here
their refs, read through the store). -/
def find_blobs_in_reach_refs (store : List Blob) (r : Nat) (refs : List Nat) : List Nat :=
  let blob := store.getD r default
  refs.filter fun j =>
    let b := store.getD j default
    decide ((blob.x, blob.y) ≠ (b.x, b.y)) &&
    decide (calculate_distance_to_coord_sq (blob.x, blob.y) (b.x, b.y) ≤ blob.size ^ 2)

/-- `helpers.try_to_eat` on blob values.  `dist_sq` is the squared
distance argument; `u` is the `random.random()` dice draw of the `else`
branch (unused when the blob is within reach, where the source draws
nothing).  Returns (successfully ate, updated survived list). -/
def try_to_eat (b : Blob) (dist_sq : ℚ) (survived_list : List Blob) (u : ℚ) :
    Bool × List Blob :=
  if dist_sq ≤ b.size ^ 2 then (true, survived_list ++ [b])
  else if u < b.survival_prob then (false, survived_list ++ [b])
  else (false, survived_list)

/-- `helpers.try_to_eat` at the store level: the survived list holds
refs and the dice draw is pulled from the stream only in the `else`
branch, as in the source. -/
def try_to_eat_ref (store : List Blob) (r : Nat) (dist_sq : ℚ)
    (survived : List Nat) (rng : Rng) : Bool × List Nat × Rng :=
  let b := store.getD r default
  if dist_sq ≤ b.size ^ 2 then (true, survived ++ [r], rng)
  else
    let (u, rng1) := rng.next
    if u < b.survival_prob then (false, survived ++ [r], rng1)
    else (false, survived, rng1)

/-- Indices `i` with `names[i] != names[i+1]`:
`np.where(names[:-1] != names[1:])[0]` of `helpers.get_pivot_indices`. -/
def pivot_core (names : List String) : List Nat :=
  (List.range (names.length - 1)).filter fun i =>
    decide (names.getD i default ≠ names.getD (i + 1) default)

/-- `helpers.get_pivot_indices`: the name array and the pivot indices,
`np.append(np.where(names[:-1] != names[1:])[0], len(population) - 1)`.
The appended `len(population) - 1` is an `Int` because on an empty
population it is `-1`. -/
def get_pivot_indices (population : List Blob) : List String × List Int :=
  let names := population.map fun b => b.name
  (names, (pivot_core names).map Int.ofNat ++ [(population.length : Int) - 1])

/-- `helpers.get_pivot_indices` applied to a generation of refs, names
read through the store. -/
def get_pivot_indices_refs (store : List Blob) (population : List Nat) :
    List String × List Int :=
  let names := population.map fun r => (store.getD r default).name
  (names, (pivot_core names).map Int.ofNat ++ [(population.length : Int) - 1])

/-- `np.random.uniform(low=0.1, high=1.0)` applied to one raw draw:
`low + (high - low) * u`. -/
def uniform_draw (u : ℚ) : ℚ := 1/10 + (9/10) * u

/-- `helpers.apply_mask_to_population`: one uniform(0.1, 1.0) trial per
element, `mask = event_prob <= attributes`, and the boolean-indexed
population `population[mask]`.  Polymorphic like the numpy original
(used both on blob values and on refs). -/
def apply_mask_to_population {α : Type} (population : List α)
    (attributes : List ℚ) (draws : List ℚ) : List α × List Bool :=
  let event_prob := draws.map uniform_draw
  let mask := List.zipWith (fun e a => decide (e ≤ a)) event_prob attributes
  (((population.zip mask).filter fun p => p.2).map fun p => p.1, mask)

/-- Boolean indexing `arr[mask]` on an attribute array
(`repr_attrs[surv_mask]` in `BaseEnvironment.interact`). -/
def filter_by_mask (attrs : List ℚ) (mask : List Bool) : List ℚ :=
  ((attrs.zip mask).filter fun p => p.2).map fun p => p.1

/-- Broadcast loop of `helpers.get_generation_attributes`: for each
pivot `idx` the attribute of `population[idx]` is repeated `idx + 1`
times for the first run and `idx - pivots[i-1]` times afterwards
(`prev` starts at `-1`). -/
def attr_broadcast (store : List Blob) (population : List Nat) (attr : Blob → ℚ) :
    List Int → Int → List ℚ
  | [], _ => []
  | idx :: rest, prev =>
      List.replicate (idx - prev).toNat
        (attr (store.getD (population.getD idx.toNat 0) default)) ++
      attr_broadcast store population attr rest idx

/-- `helpers.get_generation_attributes`: empty population short-circuits
to an empty array; otherwise attributes are broadcast run-by-run from
the pivot elements. -/
def get_generation_attributes (store : List Blob) (population : List Nat)
    (attr : Blob → ℚ) : List ℚ :=
  if population.isEmpty then []
  else attr_broadcast store population attr (get_pivot_indices_refs store population).2 (-1)

/-- `helpers.merge_populations` on refs: append, then sort by blob name
(Python's stable `list.sort(key=lambda x: x.name)`; `List.mergeSort` is
stable). -/
def merge_populations (store : List Blob) (pop1 pop2 : List Nat) : List Nat :=
  (pop1 ++ pop2).mergeSort fun a b =>
    decide ((store.getD a default).name ≤ (store.getD b default).name)

/-- Inner loop of `helpers.set_attrs_of_population`: the `s`/`r`/`m`
locals are reassigned from the *first* blob when `None` and then stay
set for every later blob. -/
def set_attrs_go : List Blob → Option ℚ → Option ℚ → Option ℚ → List Blob
  | [], _, _, _ => []
  | b :: rest, s, r, m =>
      let s1 := s.getD b.survival_prob
      let r1 := r.getD b.reproduction_prob
      let m1 := m.getD b.mutation_prob
      Blob.set_probs b s1 r1 m1 :: set_attrs_go rest (some s1) (some r1) (some m1)

/-- `helpers.set_attrs_of_population`: raises `ValueError` when all of
`s, r, m` are `None`; otherwise deep-copies each blob and applies
`set_probs` (value semantics makes the deep copy implicit). -/
def set_attrs_of_population (population_list : List Blob)
    (s r m : Option ℚ) : Except String (List Blob) :=
  if s = none ∧ r = none ∧ m = none then
    Except.error ("None attribute values passed")
  else Except.ok (set_attrs_go population_list s r m)

/-- `environment.BaseEnvironment` state: the heap of all blob objects
ever created (`store`) and the population history, each generation a
list of refs into the store.  The `dimension` attribute only affects
plotting and is omitted. -/
structure BaseEnvironment where
  store : List Blob
  population : List (List Nat)
deriving Inhabited

/-- Error kinds of the engine; stepping with an empty history hits
`self.population[-1]` on an empty list (`IndexError`), the failure the
spec names OutOfSequence. -/
inductive EnvError where
  | outOfSequence
deriving DecidableEq

/-- Result of one `interact` call on `BaseEnvironment`: either the new
state, or an error together with the state at the time of the raise. -/
inductive StepResult where
  | ok : BaseEnvironment → Rng → StepResult
  | err : EnvError → BaseEnvironment → StepResult

/-- `BaseEnvironment.spawn_population`: sort the supplied blobs by name
(stable), store them, and append the generation of their refs.  The
source's trailing `get_pivot_indices` call discards its result and is
omitted. -/
def BaseEnvironment.spawn_population (env : BaseEnvironment) (pop : List Blob) :
    BaseEnvironment :=
  let sorted := pop.mergeSort fun a b => decide (a.name ≤ b.name)
  { store := env.store ++ sorted
    population := env.population ++ [List.range' env.store.length sorted.length] }

/-- `[b.reproduce() for b in repr_pop]`: each call consumes the
mutation-event draw and then the constructor's two position draws. -/
def reproduce_all (store : List Blob) : List Nat → Rng → List Blob × Rng
  | [], rng => ([], rng)
  | r :: rest, rng =>
      let (u, rng1) := rng.next
      let (ux, rng2) := rng1.next
      let (uy, rng3) := rng2.next
      let child := Blob.reproduce (store.getD r default) u ux uy
      let (others, rng4) := reproduce_all store rest rng3
      (child :: others, rng4)

/-- `BaseEnvironment.interact`: survival masking, reproduction masking
over the survivors, reproduction, and appending the merged new
generation.  On an empty history the very first `self.population[-1]`
raises, leaving the state untouched. -/
def BaseEnvironment.interact (env : BaseEnvironment) (rng : Rng) : StepResult :=
  match env.population.getLast? with
  | none => StepResult.err EnvError.outOfSequence env
  | some gen =>
      let surv_attrs := get_generation_attributes env.store gen fun b => b.survival_prob
      let repr_attrs := get_generation_attributes env.store gen fun b => b.reproduction_prob
      let (draws1, rng1) := rng.take gen.length
      let (surv_pop, surv_mask) := apply_mask_to_population gen surv_attrs draws1
      let repr_attrs1 := filter_by_mask repr_attrs surv_mask
      let (draws2, rng2) := rng1.take surv_pop.length
      let (repr_pop, _) := apply_mask_to_population surv_pop repr_attrs1 draws2
      let (new_blobs, rng3) := reproduce_all env.store repr_pop rng2
      let store1 := env.store ++ new_blobs
      let new_refs := List.range' env.store.length new_blobs.length
      StepResult.ok
        { env with
          store := store1
          population := env.population ++ [merge_populations store1 surv_pop new_refs] }
        rng3

/-- `environment.EnvironmentWithFood` state (also the state of its
subclass `InteractiveEnvironment`, which adds no attributes). -/
structure EnvironmentWithFood where
  store : List Blob
  population : List (List Nat)
  food : Nat
  food_coords : List (List (ℚ × ℚ))
deriving Inhabited

/-- Pair up an even-length draw list into coordinates, in draw order:
`(random.random(), random.random())` per food item. -/
def pair_up : List ℚ → List (ℚ × ℚ)
  | a :: b :: rest => (a, b) :: pair_up rest
  | _ => []

/-- `EnvironmentWithFood.spawn_population` (inherited from
`BaseEnvironment`). -/
def EnvironmentWithFood.spawn_population (env : EnvironmentWithFood)
    (pop : List Blob) : EnvironmentWithFood :=
  let sorted := pop.mergeSort fun a b => decide (a.name ≤ b.name)
  { env with
    store := env.store ++ sorted
    population := env.population ++ [List.range' env.store.length sorted.length] }

/-- `EnvironmentWithFood.spawn_food`: draw `food` fresh coordinates and
append them as this generation's food list. -/
def EnvironmentWithFood.spawn_food (env : EnvironmentWithFood) (rng : Rng) :
    EnvironmentWithFood × Rng :=
  let (draws, rng1) := rng.take (2 * env.food)
  ({ env with food_coords := env.food_coords ++ [pair_up draws] }, rng1)

/-- Per-blob loop of `EnvironmentWithFood.interact`: find the closest
food, move (mutating the blob in the store), recompute the distance to
that same coordinate, and `try_to_eat`.  A `None` closest coordinate
raises inside `move` (Seeker movers) or inside
`calculate_distance_to_coord` (`none` result). -/
def wf_loop (food : List (ℚ × ℚ)) :
    List Nat → List Blob → List Nat → Rng → Option (List Blob × List Nat × Rng)
  | [], store, survived, rng => some (store, survived, rng)
  | r :: rest, store, survived, rng =>
      let b := store.getD r default
      let closest := (find_closest_coord (b.x, b.y) food).1
      match Blob.moveDispatch b closest rng with
      | none => none
      | some (b1, rng1) =>
          let store1 := store.set r b1
          match closest with
          | none => none
          | some c =>
              let new_dist := calculate_distance_to_coord_sq (b1.x, b1.y) c
              let (_, survived1, rng2) := try_to_eat_ref store1 r new_dist survived rng1
              wf_loop food rest store1 survived1 rng2

/-- Reproduction tail shared verbatim by `EnvironmentWithFood.interact`
and `InteractiveEnvironment.interact`: mask the survivors by
reproduction probability, reproduce the selected refs, and return the
grown store together with the refs of the new blobs. -/
def reproduction_phase (store : List Blob) (survived : List Nat) (rng : Rng) :
    List Blob × List Nat × Rng :=
  let repr_attrs := get_generation_attributes store survived fun b => b.reproduction_prob
  let (draws, rng1) := rng.take survived.length
  let (repr_pop, _) := apply_mask_to_population survived repr_attrs draws
  let (new_blobs, rng2) := reproduce_all store repr_pop rng1
  (store ++ new_blobs, List.range' store.length new_blobs.length, rng2)

/-- `EnvironmentWithFood.interact`: spawn food, move-and-eat every blob
of the current generation, then reproduce the survivors and append the
merged next generation. -/
def EnvironmentWithFood.interact (env : EnvironmentWithFood) (rng : Rng) :
    Option (EnvironmentWithFood × Rng) :=
  let (env1, rng1) := env.spawn_food rng
  match env1.population.getLast? with
  | none => none
  | some gen =>
      match wf_loop (env1.food_coords.getLastD []) gen env1.store [] rng1 with
      | none => none
      | some (store1, survived, rng2) =>
          let (store2, new_refs, rng3) := reproduction_phase store1 survived rng2
          some
            ({ env1 with
               store := store2
               population := env1.population ++ [merge_populations store2 survived new_refs] },
             rng3)

/-- `AttackingBlob.interact_with_surroundings`: subtract `attack_dmg`
from the survival probability of every listed blob (in the store).  The
`none` branch mirrors the unreachable case of a missing `attack_dmg`
attribute. -/
def AttackingBlob.interact_with_surroundings (store : List Blob) (r : Nat)
    (interaction_list : List Nat) : List Blob :=
  match (store.getD r default).attack_dmg with
  | some d =>
      interaction_list.foldl
        (fun st j =>
          let bj := st.getD j default
          st.set j { bj with survival_prob := bj.survival_prob - d })
        store
  | none => store

/-- `TimidBlob.interact_with_surroundings`: run away from the closest
listed blob, if any. -/
def TimidBlob.interact_with_surroundings (store : List Blob) (r : Nat)
    (interaction_list : List Nat) : List Blob :=
  let b := store.getD r default
  let blob_coords := interaction_list.map fun j =>
    ((store.getD j default).x, (store.getD j default).y)
  match (find_closest_coord (b.x, b.y) blob_coords).1 with
  | some c => store.set r (TimidBlob.run_away b c)
  | none => store

/-- Dispatch of `b.interact_with_surroundings(nearby)` inside the
`try/except AttributeError` of `InteractiveEnvironment.interact`:
`AttackingBlob` attacks, `TimidBlob` flees, `BaseInteractingBlob` /
`QuickBlob` have an inherited `pass` body, and every other class lacks
the method, which the `except` turns into a no-op. -/
def interact_with_surroundings_dispatch (store : List Blob) (r : Nat)
    (nearby : List Nat) : List Blob :=
  match (store.getD r default).name with
  | "AttackingBlob" => AttackingBlob.interact_with_surroundings store r nearby
  | "TimidBlob" => TimidBlob.interact_with_surroundings store r nearby
  | _ => store

/-- First loop of `InteractiveEnvironment.interact`: every blob moves
towards its closest food (computed against the full food set); the
QuickBlobs additionally eat at once, recording each successfully eaten
coordinate in `eaten`. -/
def ie_loop1 (food : List (ℚ × ℚ)) :
    List Nat → List Blob → List Nat → List (ℚ × ℚ) → Rng →
    Option (List Blob × List Nat × List (ℚ × ℚ) × Rng)
  | [], store, survived, eaten, rng => some (store, survived, eaten, rng)
  | r :: rest, store, survived, eaten, rng =>
      let b := store.getD r default
      let closest := (find_closest_coord (b.x, b.y) food).1
      match Blob.moveDispatch b closest rng with
      | none => none
      | some (b1, rng1) =>
          let store1 := store.set r b1
          if b1.name = "QuickBlob" then
            match closest with
            | none => none
            | some c =>
                let new_dist := calculate_distance_to_coord_sq (b1.x, b1.y) c
                let (ate, survived1, rng2) := try_to_eat_ref store1 r new_dist survived rng1
                ie_loop1 food rest store1 survived1
                  (if ate then eaten ++ [c] else eaten) rng2
          else ie_loop1 food rest store1 survived eaten rng1

/-- Food-removal step between the two loops of
`InteractiveEnvironment.interact`:
`for f in set(eaten_food): if f in remaining_food: remaining_food.remove(f)`.
Python's set iteration order is unspecified; the erasures of distinct
coordinates commute, so iterating in `dedup` order is faithful. -/
def remove_eaten (remaining : List (ℚ × ℚ)) (eaten : List (ℚ × ℚ)) :
    List (ℚ × ℚ) :=
  eaten.dedup.foldl (fun fs f => if f ∈ fs then fs.erase f else fs) remaining

/-- Second loop of `InteractiveEnvironment.interact`: every
non-QuickBlob computes its distance to the depleted food set, interacts
with the blobs in reach, and only if its survival probability is still
positive gets to `try_to_eat` (with the distance computed *before* the
interaction). -/
def ie_loop2 (remaining : List (ℚ × ℚ)) (pop_refs : List Nat) :
    List Nat → List Blob → List Nat → Rng → List Blob × List Nat × Rng
  | [], store, survived, rng => (store, survived, rng)
  | r :: rest, store, survived, rng =>
      let b := store.getD r default
      if b.name = "QuickBlob" then ie_loop2 remaining pop_refs rest store survived rng
      else
        let dist := (find_closest_coord (b.x, b.y) remaining).2
        let nearby := find_blobs_in_reach_refs store r pop_refs
        let store1 := interact_with_surroundings_dispatch store r nearby
        let b1 := store1.getD r default
        if b1.survival_prob > 0 then
          let (_, survived1, rng1) := try_to_eat_ref store1 r dist survived rng
          ie_loop2 remaining pop_refs rest store1 survived1 rng1
        else ie_loop2 remaining pop_refs rest store1 survived rng

/-- `InteractiveEnvironment.interact`: spawn food; all blobs move and
QuickBlobs eat first (loop 1); the eaten coordinates are removed from
the food list (which aliases `food_coords[-1]`); the remaining blobs
interact and eat (loop 2); survivors reproduce and the merged next
generation is appended. -/
def InteractiveEnvironment.interact (env : EnvironmentWithFood) (rng : Rng) :
    Option (EnvironmentWithFood × Rng) :=
  let (env1, rng1) := env.spawn_food rng
  match env1.population.getLast? with
  | none => none
  | some gen =>
      let food := env1.food_coords.getLastD []
      match ie_loop1 food gen env1.store [] [] rng1 with
      | none => none
      | some (store1, survived1, eaten, rng2) =>
          let remaining := remove_eaten food eaten
          let env2 := { env1 with food_coords := env1.food_coords.dropLast ++ [remaining] }
          let (store2, survived2, rng3) := ie_loop2 remaining gen gen store1 survived1 rng2
          let (store3, new_refs, rng4) := reproduction_phase store2 survived2 rng3
          some
            ({ env2 with
               store := store3
               population := env2.population ++ [merge_populations store3 survived2 new_refs] },
             rng4)

/-- Constant draw stream used by the concrete executions below: every
draw is `1/2`. -/
def rngHalf : Rng := ⟨fun _ => 1/2, 0⟩

/-- Name of the constructed class is its tag, for every catalog tag. -/
theorem mkBlobOfClass_name (t : String) (ux uy : ℚ) (ht : t ∈ blobClassTags) :
    (mkBlobOfClass t ux uy).name = t := by
  fin_cases ht <;> rfl

/-- C1 (amended).  `reproduce()` with `p_m = 1.0` always returns a fresh
instance of the designated mutated class; with `p_m = 0.0` and a nonzero
mutation draw it returns a fresh instance of the designated reproduction
class.  In both cases the child is built by the class constructor with
its class-default attribute triple: the parent's
`(survival_prob, reproduction_prob, mutation_prob)` are *not* carried
forward. -/
theorem c1_reproduce_amended (b : Blob) (mutation_event ux uy : ℚ)
    (h0 : 0 ≤ mutation_event) (h1 : mutation_event < 1) :
    (b.mutation_prob = 1 →
      Blob.reproduce b mutation_event ux uy = mkBlobOfClass b.mutation_class ux uy) ∧
    (b.mutation_prob = 0 → 0 < mutation_event →
      Blob.reproduce b mutation_event ux uy = mkBlobOfClass b.repr_class ux uy) ∧
    (∀ t ∈ blobClassTags, (mkBlobOfClass t ux uy).name = t) := by
  refine ⟨?_, ?_, fun t ht => mkBlobOfClass_name t ux uy ht⟩
  · intro hm
    unfold Blob.reproduce
    rw [hm, if_pos h1.le]
  · intro hm hu
    unfold Blob.reproduce
    rw [hm, if_neg (not_le.mpr hu)]

/-- C1 (counterexample).  A `SturdyBlob` whose probabilities were set to
`(3/10, 3/10, 0)` reproduces (draw `1/2`, no mutation) a child of the
designated reproduction type, but the child carries the class default
`survival_prob = 8/10`, not the parent's `3/10`: the claim's
"carrying forward the parent's (survival_prob, reproduction_prob,
mutation_prob)" is false. -/
theorem c1_reproduce_counterexample :
    (Blob.reproduce (Blob.set_probs (SturdyBlob.init 0 0) (3/10) (3/10) 0) (1/2) 0 0).name
      = "SturdyBlob" ∧
    (Blob.reproduce (Blob.set_probs (SturdyBlob.init 0 0) (3/10) (3/10) 0) (1/2) 0 0).survival_prob
      = 8/10 ∧
    (Blob.set_probs (SturdyBlob.init 0 0) (3/10) (3/10) 0).survival_prob = 3/10 :=
  of_decide_eq_true (by with_unfolding_all rfl)

/-- Witness for `c1_reproduce_amended` at a concrete no-mutation parent. -/
theorem c1_reproduce_amended_witness :
    ((0 : ℚ) ≤ 1/2 ∧ (1/2 : ℚ) < 1) ∧
    (SturdyBlob.init 0 0).mutation_prob = 0 ∧
    Blob.reproduce (SturdyBlob.init 0 0) (1/2) 0 0
      = mkBlobOfClass (SturdyBlob.init 0 0).repr_class 0 0 :=
  ⟨⟨by norm_num, by norm_num⟩, of_decide_eq_true (by with_unfolding_all rfl),
    (c1_reproduce_amended (SturdyBlob.init 0 0) (1/2) 0 0 (by norm_num) (by norm_num)).2.1
      (of_decide_eq_true (by with_unfolding_all rfl)) (by norm_num)⟩

/-- C4 (amended).  Membership in `find_blobs_in_reach` is exactly:
member of the list, *coordinates differ* from `blob`'s, and distance at
most `blob.size`.  The test is coordinate-based, not identity-based: it
keeps `blob` itself out, but it also keeps out any distinct blob that
coincides with `blob` in space. -/
theorem c4_reach_amended (blob : Blob) (blob_list : List Blob) (b : Blob)
    (hsize : 0 ≤ blob.size) :
    b ∈ find_blobs_in_reach blob blob_list ↔
      b ∈ blob_list ∧ (blob.x, blob.y) ≠ (b.x, b.y) ∧
        calculate_distance_to_coord_sq (blob.x, blob.y) (b.x, b.y) ≤ blob.size ^ 2 := by
  simp only [find_blobs_in_reach, List.mem_filter, Bool.and_eq_true, decide_eq_true_eq,
    and_assoc]

/-- C4 (counterexample).  A distinct blob at exactly the same
coordinates and trivially within distance `0 ≤ size` is *not* in the
nearby set: the claim's identity-based reading is false. -/
theorem c4_reach_counterexample :
    find_blobs_in_reach (BaseInteractingBlob.init (1/2) (1/2))
        [AttackingBlob.init (1/2) (1/2)] = [] ∧
    AttackingBlob.init (1/2) (1/2) ≠ BaseInteractingBlob.init (1/2) (1/2) ∧
    calculate_distance_to_coord_sq
        ((BaseInteractingBlob.init (1/2) (1/2)).x, (BaseInteractingBlob.init (1/2) (1/2)).y)
        ((AttackingBlob.init (1/2) (1/2)).x, (AttackingBlob.init (1/2) (1/2)).y) = 0 ∧
    (0 : ℚ) ≤ (BaseInteractingBlob.init (1/2) (1/2)).size :=
  of_decide_eq_true (by with_unfolding_all rfl)

/-- Witness for `c4_reach_amended` at a concrete pair in reach. -/
theorem c4_reach_amended_witness :
    (0 : ℚ) ≤ (QuickBlob.init 0 0).size ∧
    (HungryBlob.init (1/50) 0 ∈
        find_blobs_in_reach (QuickBlob.init 0 0) [HungryBlob.init (1/50) 0] ↔
      HungryBlob.init (1/50) 0 ∈ [HungryBlob.init (1/50) 0] ∧
        ((QuickBlob.init 0 0).x, (QuickBlob.init 0 0).y)
          ≠ ((HungryBlob.init (1/50) 0).x, (HungryBlob.init (1/50) 0).y) ∧
        calculate_distance_to_coord_sq
            ((QuickBlob.init 0 0).x, (QuickBlob.init 0 0).y)
            ((HungryBlob.init (1/50) 0).x, (HungryBlob.init (1/50) 0).y)
          ≤ (QuickBlob.init 0 0).size ^ 2) :=
  ⟨of_decide_eq_true (by with_unfolding_all rfl),
    c4_reach_amended (QuickBlob.init 0 0) [HungryBlob.init (1/50) 0]
      (HungryBlob.init (1/50) 0) (of_decide_eq_true (by with_unfolding_all rfl))⟩

/-- C7 (confirmed).  Stepping an environment with an empty population
history fails at once with the OutOfSequence error, returning the state
unchanged. -/
theorem c7_out_of_sequence (env : BaseEnvironment) (rng : Rng)
    (h : env.population = []) :
    BaseEnvironment.interact env rng = StepResult.err EnvError.outOfSequence env := by
  unfold BaseEnvironment.interact
  rw [h]
  rfl

/-- Witness for `c7_out_of_sequence` on a concrete empty environment. -/
theorem c7_out_of_sequence_witness :
    (BaseEnvironment.mk [] []).population = [] ∧
    BaseEnvironment.interact (BaseEnvironment.mk [] []) rngHalf
      = StepResult.err EnvError.outOfSequence (BaseEnvironment.mk [] []) :=
  ⟨rfl, c7_out_of_sequence (BaseEnvironment.mk [] []) rngHalf rfl⟩

/-- C9 (confirmed).  One Seeker `move` towards a fixed target strictly
decreases the (squared, hence also the Euclidean) distance to it, as
long as the remaining gap on each axis is at least the step size. -/
theorem c9_seeker_decrease (b : Blob) (coords : ℚ × ℚ)
    (hstep : 0 < b.step)
    (hx : b.step ≤ |coords.1 - b.x|) (hy : b.step ≤ |coords.2 - b.y|) :
    calculate_distance_to_coord_sq
        ((HungryBlob.move b coords).x, (HungryBlob.move b coords).y) coords <
      calculate_distance_to_coord_sq (b.x, b.y) coords := by
  unfold calculate_distance_to_coord_sq HungryBlob.move
  simp only
  split_ifs with h1 h2 h2
  · rw [abs_of_pos (by linarith)] at hx
    rw [abs_of_pos (by linarith)] at hy
    nlinarith [sq_nonneg (coords.1 - b.x - b.step), sq_nonneg (coords.2 - b.y - b.step)]
  · rw [abs_of_pos (by linarith)] at hx
    rw [abs_of_nonpos (by linarith)] at hy
    nlinarith [sq_nonneg (coords.1 - b.x - b.step), sq_nonneg (coords.2 - b.y + b.step)]
  · rw [abs_of_nonpos (by linarith)] at hx
    rw [abs_of_pos (by linarith)] at hy
    nlinarith [sq_nonneg (coords.1 - b.x + b.step), sq_nonneg (coords.2 - b.y - b.step)]
  · rw [abs_of_nonpos (by linarith)] at hx
    rw [abs_of_nonpos (by linarith)] at hy
    nlinarith [sq_nonneg (coords.1 - b.x + b.step), sq_nonneg (coords.2 - b.y + b.step)]

/-- Witness for `c9_seeker_decrease` on a fresh `HungryBlob` at the
origin moving towards `(1, 1)`. -/
theorem c9_seeker_decrease_witness :
    (0 : ℚ) < (HungryBlob.init 0 0).step ∧
    (HungryBlob.init 0 0).step ≤ |(1 : ℚ) - (HungryBlob.init 0 0).x| ∧
    (HungryBlob.init 0 0).step ≤ |(1 : ℚ) - (HungryBlob.init 0 0).y| ∧
    calculate_distance_to_coord_sq
        ((HungryBlob.move (HungryBlob.init 0 0) (1, 1)).x,
         (HungryBlob.move (HungryBlob.init 0 0) (1, 1)).y) (1, 1) <
      calculate_distance_to_coord_sq ((HungryBlob.init 0 0).x, (HungryBlob.init 0 0).y) (1, 1) :=
  ⟨of_decide_eq_true (by with_unfolding_all rfl),
   of_decide_eq_true (by with_unfolding_all rfl),
   of_decide_eq_true (by with_unfolding_all rfl),
   c9_seeker_decrease (HungryBlob.init 0 0) (1, 1)
     (of_decide_eq_true (by with_unfolding_all rfl))
     (of_decide_eq_true (by with_unfolding_all rfl))
     (of_decide_eq_true (by with_unfolding_all rfl))⟩

/-- Once all three attributes are `some`, the loop of
`set_attrs_of_population` applies them unchanged to every blob. -/
theorem set_attrs_go_all_some (l : List Blob) (a b c : ℚ) :
    set_attrs_go l (some a) (some b) (some c) = l.map fun bl => Blob.set_probs bl a b c := by
  induction l with
  | nil => rfl
  | cons hd tl ih => simp [set_attrs_go, ih]

/-- C10 (confirmed).  With at least one attribute given, every `None`
parameter is filled from the *first* blob and that value is applied to
every blob of the list (later blobs' own values are overwritten); with
all three `None` the call raises `ValueError`.  (The deep copies of the
source make the returned blobs fresh; in the value semantics of the
embedding the input list is trivially unchanged.) -/
theorem c10_set_attrs :
    (∀ (b0 : Blob) (rest : List Blob) (s r m : Option ℚ),
      ¬(s = none ∧ r = none ∧ m = none) →
      set_attrs_of_population (b0 :: rest) s r m =
        Except.ok ((b0 :: rest).map fun b =>
          Blob.set_probs b (s.getD b0.survival_prob) (r.getD b0.reproduction_prob)
            (m.getD b0.mutation_prob))) ∧
    (∀ population_list : List Blob,
      set_attrs_of_population population_list none none none =
        Except.error ("None attribute values passed")) := by
  constructor
  · intro b0 rest s r m h
    unfold set_attrs_of_population
    rw [if_neg h]
    simp [set_attrs_go, set_attrs_go_all_some]
  · intro l
    unfold set_attrs_of_population
    rw [if_pos ⟨rfl, rfl, rfl⟩]

/-- Witness for `c10_set_attrs`: the survival probability is supplied,
the other two are back-filled from the first blob and forced onto the
second blob as well. -/
theorem c10_set_attrs_witness :
    ¬((some (9/10) : Option ℚ) = none ∧ (none : Option ℚ) = none ∧ (none : Option ℚ) = none) ∧
    set_attrs_of_population
        [Blob.set_probs (BaseBlob.init 0 0) (1/4) (1/4) (1/4), BaseBlob.init 0 0]
        (some (9/10)) none none =
      Except.ok
        ([Blob.set_probs (BaseBlob.init 0 0) (1/4) (1/4) (1/4), BaseBlob.init 0 0].map fun b =>
          Blob.set_probs b
            ((some (9/10) : Option ℚ).getD
              (Blob.set_probs (BaseBlob.init 0 0) (1/4) (1/4) (1/4)).survival_prob)
            ((none : Option ℚ).getD
              (Blob.set_probs (BaseBlob.init 0 0) (1/4) (1/4) (1/4)).reproduction_prob)
            ((none : Option ℚ).getD
              (Blob.set_probs (BaseBlob.init 0 0) (1/4) (1/4) (1/4)).mutation_prob)) :=
  ⟨by simp,
   c10_set_attrs.1 (Blob.set_probs (BaseBlob.init 0 0) (1/4) (1/4) (1/4)) [BaseBlob.init 0 0]
     (some (9/10)) none none (by simp)⟩

/-- Index lemma for the mask of `apply_mask_to_population`. -/
theorem mask_getD_eq (draws attrs : List ℚ) (i : Nat)
    (h1 : i < draws.length) (h2 : i < attrs.length) :
    (List.zipWith (fun e a => decide (e ≤ a)) (draws.map uniform_draw) attrs).getD i false =
      decide (uniform_draw (draws.getD i 0) ≤ attrs.getD i 0) := by
  induction draws generalizing attrs i with
  | nil => simp at h1
  | cons d ds ih =>
      cases attrs with
      | nil => simp at h2
      | cons a as =>
          cases i with
          | zero => rfl
          | succ n =>
              simp only [List.map_cons, List.zipWith_cons_cons, List.getD_cons_succ]
              exact ih as n (by simpa using h1) (by simpa using h2)

/-- C8 (confirmed).  Probability trials are total on boundary and
negative values: an attribute below the `0.1` low draw bound is never
selected by the mask of `apply_mask_to_population` (draws are
`uniform(0.1, 1.0)`), a blob with `survival_prob ≤ 0` that is out of
reach of food never survives the dice roll of `try_to_eat`, and the
mask function maps empty input to empty output.  Neither embedding has
an error case: both are total functions. -/
theorem c8_trials_total :
    (∀ (population : List Blob) (attrs draws : List ℚ) (i : Nat),
      (∀ u ∈ draws, 0 ≤ u) → i < draws.length → i < attrs.length →
      attrs.getD i 0 < 1/10 →
      (apply_mask_to_population population attrs draws).2.getD i false = false) ∧
    (∀ (b : Blob) (dist_sq : ℚ) (survived_list : List Blob) (u : ℚ),
      b.survival_prob ≤ 0 → 0 ≤ u → b.size ^ 2 < dist_sq →
      try_to_eat b dist_sq survived_list u = (false, survived_list)) ∧
    apply_mask_to_population ([] : List Blob) [] [] = (([] : List Blob), ([] : List Bool)) := by
  refine ⟨?_, ?_, rfl⟩
  · intro pop attrs draws i hnn h1 h2 ha
    unfold apply_mask_to_population
    simp only
    rw [mask_getD_eq draws attrs i h1 h2]
    apply decide_eq_false
    intro hle
    have hmem : draws.getD i 0 ∈ draws := by
      rw [List.getD_eq_getElem?_getD, List.getElem?_eq_getElem h1]
      exact List.getElem_mem h1
    have h0 : 0 ≤ draws.getD i 0 := hnn _ hmem
    unfold uniform_draw at hle
    linarith
  · intro b dsq sl u hs hu hlt
    unfold try_to_eat
    rw [if_neg (not_le.mpr hlt), if_neg (not_lt.mpr (hs.trans hu))]

/-- Witness for `c8_trials_total` at concrete lists and a concrete
zero-probability blob. -/
theorem c8_trials_total_witness :
    ((∀ u ∈ [(1/2 : ℚ)], 0 ≤ u) ∧ 0 < [(1/2 : ℚ)].length ∧ 0 < [(0 : ℚ)].length ∧
      ([(0 : ℚ)].getD 0 0 < 1/10) ∧
      (apply_mask_to_population [BaseBlob.init 0 0] [(0 : ℚ)] [(1/2 : ℚ)]).2.getD 0 false
        = false) ∧
    ((Blob.set_probs (BaseBlob.init 0 0) 0 0 0).survival_prob ≤ 0 ∧ (0 : ℚ) ≤ 1/2 ∧
      (Blob.set_probs (BaseBlob.init 0 0) 0 0 0).size ^ 2 < 1 ∧
      try_to_eat (Blob.set_probs (BaseBlob.init 0 0) 0 0 0) 1 [] (1/2)
        = (false, ([] : List Blob))) :=
  ⟨⟨by intro u hu; simp at hu; simp [hu], by simp, by simp,
      of_decide_eq_true (by with_unfolding_all rfl),
      c8_trials_total.1 [BaseBlob.init 0 0] [(0 : ℚ)] [(1/2 : ℚ)] 0
        (by intro u hu; simp at hu; simp [hu]) (by simp) (by simp)
        (of_decide_eq_true (by with_unfolding_all rfl))⟩,
   ⟨of_decide_eq_true (by with_unfolding_all rfl), by norm_num,
      of_decide_eq_true (by with_unfolding_all rfl),
      c8_trials_total.2.1 (Blob.set_probs (BaseBlob.init 0 0) 0 0 0) 1 [] (1/2)
        (of_decide_eq_true (by with_unfolding_all rfl)) (by norm_num)
        (of_decide_eq_true (by with_unfolding_all rfl))⟩⟩

/-- Runs delimited by successive pivot indices: the run for pivot `p`
with predecessor pivot `prev` is `names[prev+1 .. p]` (length
`p - prev`), matching the broadcast counts of
`get_generation_attributes`. -/
def run_segments (names : List String) : Int → List Int → List (List String)
  | _, [] => []
  | prev, p :: ps =>
      ((names.drop (prev + 1).toNat).take (p - prev).toNat) ::
        run_segments names p ps

/-- Cursor condition under which a pivot list cuts `[0, n)` into
consecutive segments: starting the next segment at `s`, each pivot ends
its segment no earlier than `s - 1`, and the final cursor reaches `n`. -/
def goodCut : Nat → List Nat → Nat → Bool
  | s, [], n => decide (n ≤ s)
  | s, p :: ps, n => decide (s ≤ p + 1) && goodCut (p + 1) ps n

/-- Concatenating the segments of a `goodCut` pivot list recovers the
suffix of `names` from the cursor on. -/
theorem join_run_segments (ps : List Nat) :
    ∀ (s : Nat), ∀ (names : List String), goodCut s ps names.length = true →
      (run_segments names ((s : Int) - 1) (ps.map Int.ofNat)).flatten = names.drop s := by
  induction ps with
  | nil =>
      intro s names h
      simp only [goodCut, decide_eq_true_eq] at h
      simp [run_segments, List.drop_eq_nil_of_le h]
  | cons p ps ih =>
      intro s names h
      simp only [goodCut, Bool.and_eq_true, decide_eq_true_eq] at h
      obtain ⟨hsp, hrest⟩ := h
      have h1 : (((s : Int)) - 1 + 1).toNat = s := by omega
      have h2 : ((Int.ofNat p) - ((s : Int) - 1)).toNat = p + 1 - s := by
        simp only [Int.ofNat_eq_coe]
        omega
      have h3 : (Int.ofNat p) = (((p + 1 : Nat) : Int)) - 1 := by
        simp only [Int.ofNat_eq_coe]
        omega
      simp only [List.map_cons, run_segments, List.flatten_cons, h1, h2]
      rw [h3, ih (p + 1) names hrest]
      have h4 : names.drop (p + 1) = (names.drop s).drop (p + 1 - s) := by
        rw [List.drop_drop]
        congr 1
        omega
      rw [h4, List.take_append_drop]

/-- A strictly increasing pivot list bounded below `n - 1`, extended
with the final pivot `n - 1`, is a `goodCut` from any cursor below all
of it. -/
theorem goodCut_append_last (l : List Nat) :
    ∀ (s n : Nat), List.Pairwise (· < ·) l → (∀ x ∈ l, x + 1 < n) →
      (∀ x ∈ l, s ≤ x + 1) → s ≤ n → goodCut s (l ++ [n - 1]) n = true := by
  induction l with
  | nil =>
      intro s n _ _ _ hs
      simp only [List.nil_append, goodCut, Bool.and_eq_true, decide_eq_true_eq]
      omega
  | cons a l ih =>
      intro s n hinc hbound hcursor hs
      simp only [List.cons_append, goodCut, Bool.and_eq_true, decide_eq_true_eq]
      refine ⟨hcursor a (List.mem_cons_self a l), ?_⟩
      refine ih (a + 1) n (List.Pairwise.sublist (List.sublist_cons_self a l) hinc)
        (fun x hx => hbound x (List.mem_cons_of_mem a hx)) ?_ ?_
      · intro x hx
        have := (List.pairwise_cons.mp hinc).1 x hx
        omega
      · have := hbound a (List.mem_cons_self a l)
        omega

/-- `pivot_core` is strictly increasing. -/
theorem pivot_core_pairwise (names : List String) :
    List.Pairwise (· < ·) (pivot_core names) :=
  List.Pairwise.sublist (List.filter_sublist _) (List.pairwise_lt_range _)

/-- Every entry of `pivot_core names` is below `names.length - 1`. -/
theorem pivot_core_lt (names : List String) (x : Nat) (hx : x ∈ pivot_core names) :
    x < names.length - 1 := by
  unfold pivot_core at hx
  exact List.mem_range.mp (List.mem_of_mem_filter hx)

/-- C6 (amended).  For every nonempty generation (sorted by name, as
the callers guarantee), the pivot indices returned by
`get_pivot_indices` partition the name sequence exactly: concatenating
the runs delimited by successive pivots reproduces the name array.  The
*empty* generation, however, yields the empty name array together with
the singleton pivot array `[-1]` (from the appended
`len(population) - 1`), not an empty pivot array. -/
theorem c6_pivot_amended :
    (∀ population : List Blob, population ≠ [] →
      List.Pairwise (fun a b => a.name ≤ b.name) population →
      (run_segments (get_pivot_indices population).1 (-1)
          (get_pivot_indices population).2).flatten = (get_pivot_indices population).1) ∧
    get_pivot_indices [] = (([] : List String), ([-1] : List Int)) := by
  constructor
  · intro pop hne _hsorted
    have hlen : 1 ≤ pop.length := by
      cases pop with
      | nil => exact absurd rfl hne
      | cons a l => simp
    set names := pop.map fun b => b.name with hnames
    have hnl : names.length = pop.length := by simp [hnames]
    have hcast : ((pop.length : Int) - 1) = Int.ofNat (pop.length - 1) := by
      simp only [Int.ofNat_eq_coe]
      omega
    have hpiv : (get_pivot_indices pop).2 =
        ((pivot_core names ++ [names.length - 1]).map Int.ofNat) := by
      simp only [get_pivot_indices, List.map_append, List.map_cons, List.map_nil, hnl, hcast,
        ← hnames]
    have h1 : (get_pivot_indices pop).1 = names := rfl
    rw [h1, hpiv]
    have hgood : goodCut 0 (pivot_core names ++ [names.length - 1]) names.length = true := by
      refine goodCut_append_last (pivot_core names) 0 names.length
        (pivot_core_pairwise names) ?_ (fun x _ => Nat.zero_le _) (Nat.zero_le _)
      intro x hx
      have := pivot_core_lt names x hx
      omega
    have := join_run_segments (pivot_core names ++ [names.length - 1]) 0 names hgood
    simpa using this
  · rfl

/-- C6 (counterexample).  On the empty generation the pivot array is
`[-1]`, not empty: the claim's "empty generation yields empty tag and
pivot arrays" is false. -/
theorem c6_pivot_counterexample :
    (get_pivot_indices []).2 = ([-1] : List Int) ∧
    (get_pivot_indices []).2 ≠ ([] : List Int) := by
  constructor
  · rfl
  · intro h
    simp [get_pivot_indices, pivot_core] at h

/-- Witness for `c6_pivot_amended` on a concrete sorted two-type
generation. -/
theorem c6_pivot_amended_witness :
    ([BaseBlob.init 0 0, QuickBlob.init 0 0] ≠ ([] : List Blob)) ∧
    List.Pairwise (fun a b : Blob => a.name ≤ b.name)
      [BaseBlob.init 0 0, QuickBlob.init 0 0] ∧
    (run_segments (get_pivot_indices [BaseBlob.init 0 0, QuickBlob.init 0 0]).1 (-1)
        (get_pivot_indices [BaseBlob.init 0 0, QuickBlob.init 0 0]).2).flatten
      = (get_pivot_indices [BaseBlob.init 0 0, QuickBlob.init 0 0]).1 :=
  ⟨by simp, of_decide_eq_true (by with_unfolding_all rfl),
   c6_pivot_amended.1 [BaseBlob.init 0 0, QuickBlob.init 0 0] (by simp)
     (of_decide_eq_true (by with_unfolding_all rfl))⟩

/-- `try_to_eat` (store level) only appends to the survived list. -/
theorem try_to_eat_ref_mono (store : List Blob) (r : Nat) (d : ℚ)
    (sv : List Nat) (rng : Rng) (a : Bool) (sv' : List Nat) (g : Rng)
    (h : try_to_eat_ref store r d sv rng = (a, sv', g)) :
    ∀ x ∈ sv, x ∈ sv' := by
  unfold try_to_eat_ref at h
  simp only at h
  rcases hn : rng.next with ⟨u, rng1⟩
  rw [hn] at h
  split_ifs at h <;> (injection h with h1 h2; injection h2 with h2 h3; subst h2) <;>
    intro x hx <;> simp [hx]

/-- A blob within (squared) reach of the food eats: the guaranteed
branch of `try_to_eat`, drawing nothing. -/
theorem try_to_eat_ref_eats (store : List Blob) (r : Nat) (d : ℚ)
    (sv : List Nat) (rng : Rng) (h : d ≤ (store.getD r default).size ^ 2) :
    try_to_eat_ref store r d sv rng = (true, sv ++ [r], rng) := by
  unfold try_to_eat_ref
  rw [if_pos h]

/-- The survived list of the `EnvironmentWithFood.interact` loop only
grows. -/
theorem wf_loop_survived_mono (food : List (ℚ × ℚ)) (refs : List Nat) :
    ∀ (store : List Blob) (survived : List Nat) (rng : Rng)
      (res : List Blob × List Nat × Rng),
      wf_loop food refs store survived rng = some res →
      ∀ x ∈ survived, x ∈ res.2.1 := by
  induction refs with
  | nil =>
      intro store survived rng res h x hx
      simp only [wf_loop, Option.some.injEq] at h
      rw [← h]
      exact hx
  | cons r0 rest ih =>
      intro store survived rng res h x hx
      simp only [wf_loop] at h
      cases hm : Blob.moveDispatch (store.getD r0 default)
          (find_closest_coord ((store.getD r0 default).x, (store.getD r0 default).y) food).1
          rng with
      | none => rw [hm] at h; exact absurd h (by simp)
      | some pr =>
          rw [hm] at h
          obtain ⟨b1, rng1⟩ := pr
          cases hc : (find_closest_coord ((store.getD r0 default).x, (store.getD r0 default).y)
              food).1 with
          | none => rw [hc] at h; exact absurd h (by simp)
          | some c =>
              rw [hc] at h
              simp only at h
              rcases hte : try_to_eat_ref (store.set r0 b1) r0
                  (calculate_distance_to_coord_sq (b1.x, b1.y) c) survived rng1 with
                ⟨ate, survived1, rng2⟩
              rw [hte] at h
              exact ih (store.set r0 b1) survived1 rng2 res h x
                (try_to_eat_ref_mono _ _ _ _ _ _ _ _ hte x hx)

/-- Core of C5: in the `EnvironmentWithFood.interact` loop a Seeker
mover whose post-move position is within (squared) reach of its closest
food always ends up in the survived list — its survival probability is
never consulted.  The loop conditions for `r` can be read off the
initial store because each loop body mutates only its own ref
(distinct refs by `Nodup`). -/
theorem wf_loop_mem_survived (food : List (ℚ × ℚ)) (refs : List Nat) :
    ∀ (store : List Blob) (survived : List Nat) (rng : Rng)
      (res : List Blob × List Nat × Rng) (r : Nat) (c : ℚ × ℚ),
      refs.Nodup → r ∈ refs → r < store.length →
      usesSeekerMove (store.getD r default) = true →
      (find_closest_coord ((store.getD r default).x, (store.getD r default).y) food).1
        = some c →
      calculate_distance_to_coord_sq
          ((HungryBlob.move (store.getD r default) c).x,
           (HungryBlob.move (store.getD r default) c).y) c
        ≤ (store.getD r default).size ^ 2 →
      wf_loop food refs store survived rng = some res →
      r ∈ res.2.1 := by
  induction refs with
  | nil =>
      intro store survived rng res r c _ hmem
      exact absurd hmem (List.not_mem_nil r)
  | cons r0 rest ih =>
      intro store survived rng res r c hnd hmem hlt hseek hclosest hdist h
      simp only [wf_loop] at h
      rcases List.mem_cons.mp hmem with rfl | hr
      · rw [hclosest] at h
        simp only [Blob.moveDispatch, hseek, if_true] at h
        have hget : (store.set r (HungryBlob.move (store.getD r default) c)).getD r default
            = HungryBlob.move (store.getD r default) c := by
          rw [List.getD_eq_getElem?_getD, List.getElem?_set_self' ]
          simp [List.getElem?_eq_getElem hlt]
        rw [try_to_eat_ref_eats _ _ _ _ _ (by rw [hget]; exact hdist)] at h
        exact wf_loop_survived_mono food rest _ _ _ res h r (by simp)
      · have hne : r0 ≠ r := by
          intro heq
          exact (List.nodup_cons.mp hnd).1 (heq ▸ hr)
        cases hm : Blob.moveDispatch (store.getD r0 default)
            (find_closest_coord ((store.getD r0 default).x, (store.getD r0 default).y) food).1
            rng with
        | none => rw [hm] at h; exact absurd h (by simp)
        | some pr =>
            rw [hm] at h
            obtain ⟨b1, rng1⟩ := pr
            cases hc : (find_closest_coord
                ((store.getD r0 default).x, (store.getD r0 default).y) food).1 with
            | none => rw [hc] at h; exact absurd h (by simp)
            | some c0 =>
                rw [hc] at h
                simp only at h
                rcases hte : try_to_eat_ref (store.set r0 b1) r0
                    (calculate_distance_to_coord_sq (b1.x, b1.y) c0) survived rng1 with
                  ⟨ate, survived1, rng2⟩
                rw [hte] at h
                have hgetne : (store.set r0 b1).getD r default = store.getD r default := by
                  rw [List.getD_eq_getElem?_getD, List.getElem?_set_ne hne,
                    ← List.getD_eq_getElem?_getD]
                exact ih (store.set r0 b1) survived1 rng2 res r c
                  (List.nodup_cons.mp hnd).2 hr (by rw [List.length_set]; exact hlt)
                  (by rw [hgetne]; exact hseek) (by rw [hgetne]; exact hclosest)
                  (by rw [hgetne]; exact hdist) h

/-- C5 (amended).  In `EnvironmentWithFood.interact`, a Seeker-moving
agent whose post-move position is within reach of its closest food
always survives the generation — it is in the appended next generation
— no matter its survival probability (even `≤ 0`).  (In
`InteractiveEnvironment.interact` this holds for QuickBlobs, but *not*
for other blobs once their survival probability is `≤ 0`; see the
counterexample.) -/
theorem c5_eat_amended (env : EnvironmentWithFood) (rng : Rng) (r : Nat)
    (gen : List Nat) (c : ℚ × ℚ)
    (hgen : env.population.getLast? = some gen)
    (hnd : gen.Nodup) (hmem : r ∈ gen) (hlt : r < env.store.length)
    (hseek : usesSeekerMove (env.store.getD r default) = true)
    (hclosest : (find_closest_coord
        ((env.store.getD r default).x, (env.store.getD r default).y)
        ((env.spawn_food rng).1.food_coords.getLastD [])).1 = some c)
    (hdist : calculate_distance_to_coord_sq
        ((HungryBlob.move (env.store.getD r default) c).x,
         (HungryBlob.move (env.store.getD r default) c).y) c
      ≤ (env.store.getD r default).size ^ 2)
    (hsucc : (EnvironmentWithFood.interact env rng).isSome = true) :
    r ∈ ((EnvironmentWithFood.interact env rng).map
        fun p => p.1.population.getLastD []).getD [] := by
  rcases ht : rng.take (2 * env.food) with ⟨draws, rngA⟩
  have hsf : env.spawn_food rng =
      ({ env with food_coords := env.food_coords ++ [pair_up draws] }, rngA) := by
    unfold EnvironmentWithFood.spawn_food
    rw [ht]
  rw [hsf] at hclosest
  simp only [List.getLastD_concat] at hclosest
  simp only [EnvironmentWithFood.interact, hsf] at hsucc ⊢
  simp only [hgen, List.getLastD_concat] at hsucc ⊢
  cases hwf : wf_loop (pair_up draws) gen env.store [] rngA with
  | none => rw [hwf] at hsucc; exact absurd hsucc (by simp)
  | some triple =>
      obtain ⟨store1, survived, rng2⟩ := triple
      simp only [Option.map_some', Option.getD_some, List.getLastD_concat]
      have hr : r ∈ survived :=
        wf_loop_mem_survived (pair_up draws) gen env.store [] rngA
          (store1, survived, rng2) r c hnd hmem hlt hseek hclosest hdist hwf
      unfold merge_populations
      rw [List.mem_mergeSort]
      exact List.mem_append_left _ hr

/-- Interactive-environment state holding a single
`BaseInteractingBlob` whose probabilities were zeroed (e.g. the state
after enough combat damage), parked at `(1/2, 1/2)`. -/
def envWeak : EnvironmentWithFood :=
  { store := [Blob.set_probs (BaseInteractingBlob.init (1/2) (1/2)) 0 0 0]
    population := [[0]]
    food := 1
    food_coords := [[(3/4, 3/4)]] }

/-- C5 (counterexample).  In `InteractiveEnvironment.interact` (draws
all `1/2`) the food spawns at `(1/2, 1/2)`; the blob moves to
`(2/5, 2/5)`, whose squared distance `1/50` to the remaining closest
food is within its squared size `9/100` — yet, because its survival
probability is `0`, the `survival_prob > 0` gate keeps it from eating
and the next generation is empty.  The claim "always survives ... even
when its survival probability is 0" is false for this environment
variant. -/
theorem c5_eat_counterexample :
    (envWeak.store.getD 0 default).survival_prob = 0 ∧
    ((InteractiveEnvironment.interact envWeak rngHalf).map
        fun p => ((p.1.store.getD 0 default).x, (p.1.store.getD 0 default).y)).getD (0, 0)
      = (2/5, 2/5) ∧
    ((InteractiveEnvironment.interact envWeak rngHalf).map
        fun p => p.1.food_coords.getLastD []).getD []
      = [(1/2, 1/2)] ∧
    calculate_distance_to_coord_sq (2/5, 2/5) (1/2, 1/2)
      ≤ (envWeak.store.getD 0 default).size ^ 2 ∧
    ((InteractiveEnvironment.interact envWeak rngHalf).map
        fun p => p.1.population.getLastD []).getD [0]
      = [] :=
  of_decide_eq_true (by with_unfolding_all rfl)

/-- Food-environment state holding a single `HungryBlob` with survival
probability zeroed, close to where the food will spawn. -/
def envHungryZero : EnvironmentWithFood :=
  { store := [Blob.set_probs (HungryBlob.init (9/20) (9/20)) 0 0 0]
    population := [[0]]
    food := 1
    food_coords := [[(3/4, 3/4)]] }

/-- Witness for `c5_eat_amended`: the zero-survival `HungryBlob` ends
up within reach after its move and indeed appears in the next
generation. -/
theorem c5_eat_amended_witness :
    envHungryZero.population.getLast? = some [0] ∧
    ([0] : List Nat).Nodup ∧ 0 ∈ ([0] : List Nat) ∧ 0 < envHungryZero.store.length ∧
    usesSeekerMove (envHungryZero.store.getD 0 default) = true ∧
    (find_closest_coord
        ((envHungryZero.store.getD 0 default).x, (envHungryZero.store.getD 0 default).y)
        ((envHungryZero.spawn_food rngHalf).1.food_coords.getLastD [])).1
      = some (1/2, 1/2) ∧
    calculate_distance_to_coord_sq
        ((HungryBlob.move (envHungryZero.store.getD 0 default) (1/2, 1/2)).x,
         (HungryBlob.move (envHungryZero.store.getD 0 default) (1/2, 1/2)).y) (1/2, 1/2)
      ≤ (envHungryZero.store.getD 0 default).size ^ 2 ∧
    (EnvironmentWithFood.interact envHungryZero rngHalf).isSome = true ∧
    0 ∈ ((EnvironmentWithFood.interact envHungryZero rngHalf).map
        fun p => p.1.population.getLastD []).getD [] :=
  ⟨rfl, by simp, by simp, by simp [envHungryZero],
   of_decide_eq_true (by with_unfolding_all rfl),
   of_decide_eq_true (by with_unfolding_all rfl),
   of_decide_eq_true (by with_unfolding_all rfl),
   of_decide_eq_true (by with_unfolding_all rfl),
   c5_eat_amended envHungryZero rngHalf 0 [0] (1/2, 1/2) rfl (by simp) (by simp)
     (by simp [envHungryZero]) (of_decide_eq_true (by with_unfolding_all rfl))
     (of_decide_eq_true (by with_unfolding_all rfl))
     (of_decide_eq_true (by with_unfolding_all rfl))
     (of_decide_eq_true (by with_unfolding_all rfl))⟩

/-- C2 (amended).  A successful `EnvironmentWithFood.interact` is
append-only on the history *structure*: it appends exactly one new
generation and leaves the ref lists of all earlier generations in
place.  (The agents referenced by those earlier generations are *not*
immutable snapshots — the loop mutates them in the shared store; see
the counterexample.) -/
theorem c2_history_amended (env : EnvironmentWithFood) (rng : Rng)
    (hsucc : (EnvironmentWithFood.interact env rng).isSome = true) :
    ((EnvironmentWithFood.interact env rng).map
        fun p => p.1.population.dropLast).getD [] = env.population ∧
    ((EnvironmentWithFood.interact env rng).map
        fun p => p.1.population.length).getD 0 = env.population.length + 1 := by
  rcases ht : rng.take (2 * env.food) with ⟨draws, rngA⟩
  have hsf : env.spawn_food rng =
      ({ env with food_coords := env.food_coords ++ [pair_up draws] }, rngA) := by
    unfold EnvironmentWithFood.spawn_food
    rw [ht]
  simp only [EnvironmentWithFood.interact, hsf] at hsucc ⊢
  cases hgen : env.population.getLast? with
  | none =>
      rw [hgen] at hsucc
      simp at hsucc
  | some gen =>
      simp only [hgen] at hsucc
      simp only [List.getLastD_concat] at hsucc ⊢
      cases hwf : wf_loop (pair_up draws) gen env.store [] rngA with
      | none =>
          simp only [hwf] at hsucc
          simp at hsucc
      | some triple =>
          obtain ⟨store1, survived, rng2⟩ := triple
          simp [List.dropLast_concat]

/-- Food-environment state holding a single `HungryBlob` at
`(1/4, 1/4)`, generation 0 already recorded in the history. -/
def envShared : EnvironmentWithFood :=
  { store := [HungryBlob.init (1/4) (1/4)]
    population := [[0]]
    food := 1
    food_coords := [[(3/4, 3/4)]] }

/-- C2 (counterexample).  Generation 0 (already appended) records the
agent at ref 0 with `x = 1/4`.  Running one `interact` (draws all
`1/2`: food at `(1/2, 1/2)`) moves that same shared agent in place:
afterwards generation 0 still consists of ref 0, but the agent it
records now has `x = 7/20`.  A later operation (the move of the
interaction step) retroactively changed the attributes of an agent
recorded in a prior generation, so the claim is false. -/
theorem c2_history_counterexample :
    (envShared.store.getD 0 default).x = 1/4 ∧
    envShared.population.getD 0 [] = [0] ∧
    ((EnvironmentWithFood.interact envShared rngHalf).map
        fun p => ((p.1.store.getD 0 default).x, p.1.population.getD 0 [])).getD (0, [])
      = (7/20, [0]) :=
  of_decide_eq_true (by with_unfolding_all rfl)

/-- Witness for `c2_history_amended` on the same concrete environment. -/
theorem c2_history_amended_witness :
    (EnvironmentWithFood.interact envShared rngHalf).isSome = true ∧
    (((EnvironmentWithFood.interact envShared rngHalf).map
        fun p => p.1.population.dropLast).getD [] = envShared.population ∧
      ((EnvironmentWithFood.interact envShared rngHalf).map
        fun p => p.1.population.length).getD 0 = envShared.population.length + 1) :=
  ⟨of_decide_eq_true (by with_unfolding_all rfl),
   c2_history_amended envShared rngHalf (of_decide_eq_true (by with_unfolding_all rfl))⟩

/-- The survived and eaten lists of the QuickBlob loop only grow. -/
theorem ie_loop1_mono (food : List (ℚ × ℚ)) (refs : List Nat) :
    ∀ (store : List Blob) (survived : List Nat) (eaten : List (ℚ × ℚ)) (rng : Rng)
      (res : List Blob × List Nat × List (ℚ × ℚ) × Rng),
      ie_loop1 food refs store survived eaten rng = some res →
      (∀ x ∈ survived, x ∈ res.2.1) ∧ (∀ e ∈ eaten, e ∈ res.2.2.1) := by
  induction refs with
  | nil =>
      intro store survived eaten rng res h
      simp only [ie_loop1, Option.some.injEq] at h
      rw [← h]
      exact ⟨fun x hx => hx, fun e he => he⟩
  | cons r0 rest ih =>
      intro store survived eaten rng res h
      simp only [ie_loop1] at h
      cases hm : Blob.moveDispatch (store.getD r0 default)
          (find_closest_coord ((store.getD r0 default).x, (store.getD r0 default).y) food).1
          rng with
      | none => rw [hm] at h; exact absurd h (by simp)
      | some pr =>
          rw [hm] at h
          obtain ⟨b1, rng1⟩ := pr
          simp only at h
          by_cases hq : b1.name = "QuickBlob"
          · rw [if_pos hq] at h
            cases hc : (find_closest_coord
                ((store.getD r0 default).x, (store.getD r0 default).y) food).1 with
            | none => rw [hc] at h; exact absurd h (by simp)
            | some c =>
                rw [hc] at h
                simp only at h
                rcases hte : try_to_eat_ref (store.set r0 b1) r0
                    (calculate_distance_to_coord_sq (b1.x, b1.y) c) survived rng1 with
                  ⟨ate, survived1, rng2⟩
                rw [hte] at h
                obtain ⟨ihs, ihe⟩ := ih _ _ _ _ _ h
                refine ⟨fun x hx => ihs x (try_to_eat_ref_mono _ _ _ _ _ _ _ _ hte x hx),
                  fun e he => ihe e ?_⟩
                cases ate <;> simp [he]
          · rw [if_neg hq] at h
            exact ih _ _ _ _ _ h

/-- Core of C3: in the QuickBlob loop, *every* QuickBlob whose
post-move position is within (squared) reach of its closest food (the
full food set, shared by all QuickBlobs) ends up in the survived list,
and its coordinate is recorded in the eaten list — independently of any
other QuickBlob eating the same coordinate. -/
theorem ie_loop1_mem (food : List (ℚ × ℚ)) (refs : List Nat) :
    ∀ (store : List Blob) (survived : List Nat) (eaten : List (ℚ × ℚ)) (rng : Rng)
      (res : List Blob × List Nat × List (ℚ × ℚ) × Rng) (r : Nat) (c : ℚ × ℚ),
      refs.Nodup → r ∈ refs → r < store.length →
      (store.getD r default).name = "QuickBlob" →
      (find_closest_coord ((store.getD r default).x, (store.getD r default).y) food).1
        = some c →
      calculate_distance_to_coord_sq
          ((HungryBlob.move (store.getD r default) c).x,
           (HungryBlob.move (store.getD r default) c).y) c
        ≤ (store.getD r default).size ^ 2 →
      ie_loop1 food refs store survived eaten rng = some res →
      r ∈ res.2.1 ∧ c ∈ res.2.2.1 := by
  induction refs with
  | nil =>
      intro store survived eaten rng res r c _ hmem
      exact absurd hmem (List.not_mem_nil r)
  | cons r0 rest ih =>
      intro store survived eaten rng res r c hnd hmem hlt hname hclosest hdist h
      simp only [ie_loop1] at h
      rcases List.mem_cons.mp hmem with rfl | hr
      · have hseek : usesSeekerMove (store.getD r default) = true := by
          unfold usesSeekerMove
          rw [hname]
          rfl
        rw [hclosest] at h
        simp only [Blob.moveDispatch, hseek, if_true] at h
        have hqname : (HungryBlob.move (store.getD r default) c).name = "QuickBlob" := hname
        rw [if_pos hqname] at h
        have hget : (store.set r (HungryBlob.move (store.getD r default) c)).getD r default
            = HungryBlob.move (store.getD r default) c := by
          rw [List.getD_eq_getElem?_getD, List.getElem?_set_self']
          simp [List.getElem?_eq_getElem hlt]
        rw [try_to_eat_ref_eats _ _ _ _ _ (by rw [hget]; exact hdist)] at h
        simp only [if_true] at h
        obtain ⟨ihs, ihe⟩ := ie_loop1_mono food rest _ _ _ _ _ h
        exact ⟨ihs r (by simp), ihe c (by simp)⟩
      · have hne : r0 ≠ r := by
          intro heq
          exact (List.nodup_cons.mp hnd).1 (heq ▸ hr)
        cases hm : Blob.moveDispatch (store.getD r0 default)
            (find_closest_coord ((store.getD r0 default).x, (store.getD r0 default).y) food).1
            rng with
        | none => rw [hm] at h; exact absurd h (by simp)
        | some pr =>
            rw [hm] at h
            obtain ⟨b1, rng1⟩ := pr
            simp only at h
            have hgetne : (store.set r0 b1).getD r default = store.getD r default := by
              rw [List.getD_eq_getElem?_getD, List.getElem?_set_ne hne,
                ← List.getD_eq_getElem?_getD]
            have hltne : r < (store.set r0 b1).length := by
              rw [List.length_set]
              exact hlt
            by_cases hq : b1.name = "QuickBlob"
            · rw [if_pos hq] at h
              cases hc : (find_closest_coord
                  ((store.getD r0 default).x, (store.getD r0 default).y) food).1 with
              | none => rw [hc] at h; exact absurd h (by simp)
              | some c0 =>
                  rw [hc] at h
                  simp only at h
                  rcases hte : try_to_eat_ref (store.set r0 b1) r0
                      (calculate_distance_to_coord_sq (b1.x, b1.y) c0) survived rng1 with
                    ⟨ate, survived1, rng2⟩
                  rw [hte] at h
                  exact ih _ _ _ _ _ r c (List.nodup_cons.mp hnd).2 hr hltne
                    (by rw [hgetne]; exact hname) (by rw [hgetne]; exact hclosest)
                    (by rw [hgetne]; exact hdist) h
            · rw [if_neg hq] at h
              exact ih _ _ _ _ _ r c (List.nodup_cons.mp hnd).2 hr hltne
                (by rw [hgetne]; exact hname) (by rw [hgetne]; exact hclosest)
                (by rw [hgetne]; exact hdist) h

/-- Counting effect of folding one-shot erasures of the distinct
elements of `l` over `food`. -/
theorem foldl_erase_count (l : List (ℚ × ℚ)) :
    ∀ (food : List (ℚ × ℚ)) (c : ℚ × ℚ), l.Nodup →
      (l.foldl (fun fs f => if f ∈ fs then fs.erase f else fs) food).count c =
        food.count c - (if c ∈ l then 1 else 0) := by
  induction l with
  | nil => intro food c _; simp
  | cons a l ih =>
      intro food c hnd
      simp only [List.foldl_cons]
      rw [ih _ c (List.nodup_cons.mp hnd).2]
      by_cases hca : c = a
      · subst hca
        rw [if_neg ((List.nodup_cons.mp hnd).1), if_pos (List.mem_cons_self c l)]
        by_cases hcf : c ∈ food
        · rw [if_pos hcf, List.count_erase_self]
          omega
        · rw [if_neg hcf, List.count_eq_zero_of_not_mem hcf]
      · have hmem : (if c ∈ a :: l then (1 : Nat) else 0) = (if c ∈ l then 1 else 0) := by
          simp [List.mem_cons, hca]
        rw [hmem]
        congr 1
        split_ifs with haf
        · exact List.count_erase_of_ne hca food
        · rfl

/-- Each *distinct* successfully eaten coordinate is removed exactly
once from the remaining food (and absent coordinates are left alone:
`Nat` subtraction truncates at zero). -/
theorem remove_eaten_count (food eaten : List (ℚ × ℚ)) (c : ℚ × ℚ) :
    (remove_eaten food eaten).count c = food.count c - (if c ∈ eaten then 1 else 0) := by
  unfold remove_eaten
  rw [foldl_erase_count _ _ _ (List.nodup_dedup eaten)]
  congr 1
  simp [List.mem_dedup]

/-- C3 (amended).  In `InteractiveEnvironment.interact`:
(1) all QuickBlobs eat against the *full* food set — every QuickBlob
whose post-move position is within reach of its closest coordinate gets
guaranteed survival and records that coordinate as eaten, even when
several QuickBlobs target the same coordinate; (2) each *distinct*
successfully eaten coordinate is then removed exactly once from the
food list, and it is this depleted list that the non-QuickBlob loop
eats against. -/
theorem c3_quickblob_amended :
    (∀ (food : List (ℚ × ℚ)) (refs : List Nat) (store : List Blob) (survived : List Nat)
        (eaten : List (ℚ × ℚ)) (rng : Rng)
        (res : List Blob × List Nat × List (ℚ × ℚ) × Rng) (r : Nat) (c : ℚ × ℚ),
      refs.Nodup → r ∈ refs → r < store.length →
      (store.getD r default).name = "QuickBlob" →
      (find_closest_coord ((store.getD r default).x, (store.getD r default).y) food).1
        = some c →
      calculate_distance_to_coord_sq
          ((HungryBlob.move (store.getD r default) c).x,
           (HungryBlob.move (store.getD r default) c).y) c
        ≤ (store.getD r default).size ^ 2 →
      ie_loop1 food refs store survived eaten rng = some res →
      r ∈ res.2.1 ∧ c ∈ res.2.2.1) ∧
    (∀ (food eaten : List (ℚ × ℚ)) (c : ℚ × ℚ),
      (remove_eaten food eaten).count c = food.count c - (if c ∈ eaten then 1 else 0)) :=
  ⟨fun food refs => ie_loop1_mem food refs, remove_eaten_count⟩

/-- Interactive-environment state holding two `QuickBlob`s with zeroed
survival probability, both at `(1/2, 1/2)` where the food will spawn. -/
def envTwoQuick : EnvironmentWithFood :=
  { store := [Blob.set_probs (QuickBlob.init (1/2) (1/2)) 0 (1/2) 0,
              Blob.set_probs (QuickBlob.init (1/2) (1/2)) 0 (1/2) 0]
    population := [[0, 1]]
    food := 1
    food_coords := [[(3/4, 3/4)]] }

/-- C3 (counterexample).  With draws all `1/2` the food spawns at
`(1/2, 1/2)` and both QuickBlobs (refs 0 and 1) target it as their
closest coordinate.  Both get guaranteed survival from it — their
survival probabilities are `0`, so the dice path cannot have saved
them — and the coordinate appears twice in the eaten list but is
removed only once (leaving no food).  The claim that only the first
QuickBlob processed consumes the coordinate, the others not getting
guaranteed survival from it, is false. -/
theorem c3_quickblob_counterexample :
    (envTwoQuick.store.getD 0 default).survival_prob = 0 ∧
    (envTwoQuick.store.getD 1 default).survival_prob = 0 ∧
    ((ie_loop1 [(1/2, 1/2)] [0, 1] envTwoQuick.store [] [] rngHalf).map
        fun q => (q.2.1, q.2.2.1)).getD ([], [])
      = ([0, 1], [(1/2, 1/2), (1/2, 1/2)]) ∧
    remove_eaten [(1/2, 1/2)] [(1/2, 1/2), (1/2, 1/2)] = [] ∧
    ((InteractiveEnvironment.interact envTwoQuick rngHalf).map
        fun p => p.1.population.getLastD []).getD [] = [0, 1] :=
  of_decide_eq_true (by with_unfolding_all rfl)

/-- Witness for `c3_quickblob_amended` on a single QuickBlob next to
the food, and a concrete removal count. -/
theorem c3_quickblob_amended_witness :
    (([0] : List Nat).Nodup ∧ 0 ∈ ([0] : List Nat) ∧
      0 < [QuickBlob.init (1/2) (1/2)].length ∧
      ([QuickBlob.init (1/2) (1/2)].getD 0 default).name = "QuickBlob" ∧
      (find_closest_coord
          (([QuickBlob.init (1/2) (1/2)].getD 0 default).x,
           ([QuickBlob.init (1/2) (1/2)].getD 0 default).y) [(1/2, 1/2)]).1
        = some (1/2, 1/2) ∧
      calculate_distance_to_coord_sq
          ((HungryBlob.move ([QuickBlob.init (1/2) (1/2)].getD 0 default) (1/2, 1/2)).x,
           (HungryBlob.move ([QuickBlob.init (1/2) (1/2)].getD 0 default) (1/2, 1/2)).y)
          (1/2, 1/2)
        ≤ ([QuickBlob.init (1/2) (1/2)].getD 0 default).size ^ 2 ∧
      ie_loop1 [(1/2, 1/2)] [0] [QuickBlob.init (1/2) (1/2)] [] [] rngHalf
        = some ([HungryBlob.move (QuickBlob.init (1/2) (1/2)) (1/2, 1/2)], [0],
            [(1/2, 1/2)], rngHalf) ∧
      (0 ∈ ([0] : List Nat) ∧ ((1:ℚ)/2, (1:ℚ)/2) ∈ [((1:ℚ)/2, (1:ℚ)/2)])) ∧
    (remove_eaten [(1/2, 1/2)] [(1/2, 1/2), (1/2, 1/2)]).count (1/2, 1/2)
      = ([((1:ℚ)/2, (1:ℚ)/2)] : List (ℚ × ℚ)).count (1/2, 1/2)
        - (if ((1:ℚ)/2, (1:ℚ)/2) ∈ [((1:ℚ)/2, (1:ℚ)/2), ((1:ℚ)/2, (1:ℚ)/2)] then 1 else 0) :=
  ⟨⟨by simp, by simp, by simp, of_decide_eq_true (by with_unfolding_all rfl),
     of_decide_eq_true (by with_unfolding_all rfl),
     of_decide_eq_true (by with_unfolding_all rfl),
     (by with_unfolding_all rfl),
     c3_quickblob_amended.1 [(1/2, 1/2)] [0] [QuickBlob.init (1/2) (1/2)] [] [] rngHalf
       ([HungryBlob.move (QuickBlob.init (1/2) (1/2)) (1/2, 1/2)], [0], [(1/2, 1/2)], rngHalf)
       0 (1/2, 1/2) (by simp) (by simp) (by simp)
       (of_decide_eq_true (by with_unfolding_all rfl))
       (of_decide_eq_true (by with_unfolding_all rfl))
       (of_decide_eq_true (by with_unfolding_all rfl))
       (by with_unfolding_all rfl)⟩,
   c3_quickblob_amended.2 [(1/2, 1/2)] [(1/2, 1/2), (1/2, 1/2)] (1/2, 1/2)⟩
